import Mathlib

/-!
Verification of the AI-Powered Lead Management repository.

Shallow embedding of the frontend logic (Leads page sort/filter from
`frontend/src/pages/Leads.jsx`, the Replies inbox handlers from
`frontend/src/pages/RepliesInbox.jsx`, the API client `src/api.js`) and of
the backend operations the spec describes (those sources are not part of
the provided material; they are modelled from the spec and marked so).
-/

namespace LeadMgmt

/-! ## Leads page: data model and display sort (Leads.jsx) -/

/-- A lead row as consumed by the Leads page.  Fields the page may find
absent on the wire (`lead_priority`, `lead_score`, `last_reply_intent`)
are options. -/
structure Lead where
  id : Nat
  name : String
  email : String
  company : String
  status : String
  lead_score : Option Int
  lead_priority : Option String
  last_reply_intent : Option String
deriving DecidableEq, Repr

/-- `priorityRank`: the lookup `{ HIGH: 4, MEDIUM: 3, LOW: 2, IGNORE: 1 }[p] || 0`
of the Leads page sort comparator; any other or missing priority yields 0. -/
def priorityRank : Option String → Int
  | some "HIGH" => 4
  | some "MEDIUM" => 3
  | some "LOW" => 2
  | some "IGNORE" => 1
  | _ => 0

/-- The JS sort comparator of `filteredLeads`: priority rank difference first
(descending priority), then descending score, with a missing score read as 0. -/
def jsLeadCompare (a b : Lead) : Int :=
  if priorityRank a.lead_priority ≠ priorityRank b.lead_priority then
    priorityRank b.lead_priority - priorityRank a.lead_priority
  else
    b.lead_score.getD 0 - a.lead_score.getD 0

/-- `a` may be placed before `b` by the comparator (comparator result ≤ 0). -/
def leadOrder (a b : Lead) : Prop := jsLeadCompare a b ≤ 0

instance : DecidableRel leadOrder := fun a b =>
  inferInstanceAs (Decidable (jsLeadCompare a b ≤ 0))

/-- The intended display order: strictly higher priority rank first, ties
broken by descending (defaulted) score. -/
def leadRel (a b : Lead) : Prop :=
  priorityRank b.lead_priority < priorityRank a.lead_priority ∨
    (priorityRank a.lead_priority = priorityRank b.lead_priority ∧
      b.lead_score.getD 0 ≤ a.lead_score.getD 0)

theorem leadOrder_iff (a b : Lead) : leadOrder a b ↔ leadRel a b := by
  unfold leadOrder leadRel jsLeadCompare
  by_cases h : priorityRank a.lead_priority = priorityRank b.lead_priority
  · rw [if_neg (by simpa using h)]
    omega
  · rw [if_pos h]
    omega

instance : IsTotal Lead leadOrder where
  total a b := by
    rw [leadOrder_iff, leadOrder_iff]
    unfold leadRel
    omega

instance : IsTrans Lead leadOrder where
  trans a b c hab hbc := by
    rw [leadOrder_iff] at *
    unfold leadRel at *
    omega

/-- JS loose membership test `lead.field !== filterValue` specialised to an
optional string against a present filter string. -/
def optEqStr : Option String → String → Bool
  | some s, t => s = t
  | none, _ => false

/-- The filter predicate of `filteredLeads`: a lead passes when each filter is
`"ALL"` or matches the corresponding field. -/
def leadKeep (pf itf : String) (l : Lead) : Bool :=
  (pf = "ALL" || optEqStr l.lead_priority pf) &&
    (itf = "ALL" || optEqStr l.last_reply_intent itf)

/-- `filteredLeads` of the Leads page: filter by the two dropdowns, then sort
with the priority/score comparator.  `Array.prototype.sort` is a stable
comparison sort; it is embedded as insertion sort, which is stable and sorted
for the same total preorder. -/
def filteredLeads (pf itf : String) (ls : List Lead) : List Lead :=
  List.insertionSort leadOrder (ls.filter (leadKeep pf itf))

/-- Projection of a lead to the (priority, score) pair shown in examples. -/
def leadView (l : Lead) : String × Int :=
  (l.lead_priority.getD "", l.lead_score.getD 0)

/-- The concrete four-lead example of the spec: priorities
[LOW, HIGH, MEDIUM, HIGH] with scores [10, 90, 50, 70]. -/
def c1ExampleLeads : List Lead :=
  [ ⟨1, "a", "a@x.com", "", "NEW", some 10, some "LOW", none⟩,
    ⟨2, "b", "b@x.com", "", "NEW", some 90, some "HIGH", none⟩,
    ⟨3, "c", "c@x.com", "", "NEW", some 50, some "MEDIUM", none⟩,
    ⟨4, "d", "d@x.com", "", "NEW", some 70, some "HIGH", none⟩ ]

/-- C1: every list rendered by the Leads page is sorted by priority
(HIGH > MEDIUM > LOW > IGNORE), ties broken by descending score, and on the
example with priorities [LOW, HIGH, MEDIUM, HIGH] and scores [10, 90, 50, 70]
the displayed order is [HIGH/90, HIGH/70, MEDIUM/50, LOW/10]. -/
theorem leads_display_sorted :
    ∀ (pf itf : String) (ls : List Lead),
      List.Sorted leadRel (filteredLeads pf itf ls) ∧
      (filteredLeads "ALL" "ALL" c1ExampleLeads).map leadView =
        [("HIGH", 90), ("HIGH", 70), ("MEDIUM", 50), ("LOW", 10)] := by
  intro pf itf ls
  constructor
  · exact (List.sorted_insertionSort leadOrder _).imp (fun h => (leadOrder_iff _ _).mp h)
  · decide

/-- C10: unknown or missing priorities rank 0 and sort strictly below IGNORE
leads, a missing score is read as 0 by the comparator, and the comparator is
total. -/
theorem unknown_priority_ranks_lowest :
    ∀ (s : String) (a b : Lead),
      (s ≠ "HIGH" → s ≠ "MEDIUM" → s ≠ "LOW" → s ≠ "IGNORE" →
        priorityRank (some s) = 0) ∧
      priorityRank none = 0 ∧
      (b.lead_priority = some "IGNORE" → priorityRank a.lead_priority = 0 →
        leadRel b a ∧ ¬ leadRel a b) ∧
      (a.lead_score = none →
        jsLeadCompare a b = jsLeadCompare { a with lead_score := some 0 } b ∧
        jsLeadCompare b a = jsLeadCompare b { a with lead_score := some 0 }) ∧
      (leadOrder a b ∨ leadOrder b a) := by
  intro s a b
  refine ⟨?_, rfl, ?_, ?_, IsTotal.total a b⟩
  · intro h1 h2 h3 h4
    unfold priorityRank
    split <;> simp_all
  · intro hb ha
    unfold leadRel
    rw [hb, ha]
    simp [priorityRank]
  · intro ha
    unfold jsLeadCompare
    rw [ha]
    constructor <;> rfl

/-- Witness for C10 at concrete inputs. -/
theorem unknown_priority_ranks_lowest_witness :
    priorityRank (some "WHATEVER") = 0 ∧
    (leadRel ⟨1, "i", "i@x", "", "NEW", some 0, some "IGNORE", none⟩
             ⟨2, "j", "j@x", "", "NEW", some 99, some "WHATEVER", none⟩ ∧
     ¬ leadRel ⟨2, "j", "j@x", "", "NEW", some 99, some "WHATEVER", none⟩
               ⟨1, "i", "i@x", "", "NEW", some 0, some "IGNORE", none⟩) ∧
    jsLeadCompare ⟨3, "k", "k@x", "", "NEW", none, none, none⟩
                  ⟨1, "i", "i@x", "", "NEW", some 0, some "IGNORE", none⟩ =
      jsLeadCompare ⟨3, "k", "k@x", "", "NEW", some 0, none, none⟩
                    ⟨1, "i", "i@x", "", "NEW", some 0, some "IGNORE", none⟩ := by
  refine ⟨?_, ?_, ?_⟩
  · exact (unknown_priority_ranks_lowest "WHATEVER"
      ⟨2, "j", "j@x", "", "NEW", some 99, some "WHATEVER", none⟩
      ⟨1, "i", "i@x", "", "NEW", some 0, some "IGNORE", none⟩).1
      (by decide) (by decide) (by decide) (by decide)
  · exact (unknown_priority_ranks_lowest "WHATEVER"
      ⟨2, "j", "j@x", "", "NEW", some 99, some "WHATEVER", none⟩
      ⟨1, "i", "i@x", "", "NEW", some 0, some "IGNORE", none⟩).2.2.1
      rfl (by decide)
  · exact ((unknown_priority_ranks_lowest "WHATEVER"
      ⟨3, "k", "k@x", "", "NEW", none, none, none⟩
      ⟨1, "i", "i@x", "", "NEW", some 0, some "IGNORE", none⟩).2.2.2.1
      rfl).1

/-! ## API client (src/api.js)

Each mutating client function is embedded as a function of the HTTP response
it observes: `ok` responses yield the parsed JSON payload, non-ok responses
throw `error.detail || '<fixed default>'`. -/

/-- An HTTP response as the client reads it: the `ok` flag, the optional
`detail` string of the parsed error body, and the parsed JSON payload. -/
structure ApiResponse (α : Type) where
  ok : Bool
  detail : Option String
  payload : α

/-- JS `x || dflt` on the optional `detail` string: `none` and the empty
string are falsy and fall back to the default. -/
def jsOr : Option String → String → String
  | some d, dflt => if d = "" then dflt else d
  | none, dflt => dflt

namespace Api

/-- `createLead` of src/api.js, as a function of the observed response. -/
def createLead {α : Type} (resp : ApiResponse α) : Except String α :=
  if resp.ok then .ok resp.payload
  else .error (jsOr resp.detail "Failed to create lead")

/-- `sendEmail` of src/api.js. -/
def sendEmail {α : Type} (resp : ApiResponse α) : Except String α :=
  if resp.ok then .ok resp.payload
  else .error (jsOr resp.detail "Failed to send email")

/-- `syncReplies` of src/api.js. -/
def syncReplies {α : Type} (resp : ApiResponse α) : Except String α :=
  if resp.ok then .ok resp.payload
  else .error (jsOr resp.detail "Failed to sync replies")

/-- `generateNextAction` of src/api.js. -/
def generateNextAction {α : Type} (resp : ApiResponse α) : Except String α :=
  if resp.ok then .ok resp.payload
  else .error (jsOr resp.detail "Failed to generate next action")

/-- `generateDraft` of src/api.js. -/
def generateDraft {α : Type} (resp : ApiResponse α) : Except String α :=
  if resp.ok then .ok resp.payload
  else .error (jsOr resp.detail "Failed to generate draft")

/-- `uploadAttachment` of src/api.js. -/
def uploadAttachment {α : Type} (resp : ApiResponse α) : Except String α :=
  if resp.ok then .ok resp.payload
  else .error (jsOr resp.detail "Failed to upload file")

/-- `sendDraftReply` of src/api.js. -/
def sendDraftReply {α : Type} (resp : ApiResponse α) : Except String α :=
  if resp.ok then .ok resp.payload
  else .error (jsOr resp.detail "Failed to send draft")

end Api

/-- C8: every mutating client call returns the parsed payload on an ok
response; on a non-ok response it throws the body's non-empty `detail`
string, or the function's fixed default when `detail` is absent. -/
theorem api_error_propagation :
    ∀ (α : Type) (resp : ApiResponse α) (d : String),
      (resp.ok = true →
        Api.createLead resp = .ok resp.payload ∧
        Api.sendEmail resp = .ok resp.payload ∧
        Api.syncReplies resp = .ok resp.payload ∧
        Api.generateNextAction resp = .ok resp.payload ∧
        Api.generateDraft resp = .ok resp.payload ∧
        Api.uploadAttachment resp = .ok resp.payload ∧
        Api.sendDraftReply resp = .ok resp.payload) ∧
      (resp.ok = false → resp.detail = some d → d ≠ "" →
        Api.createLead resp = .error d ∧
        Api.sendEmail resp = .error d ∧
        Api.syncReplies resp = .error d ∧
        Api.generateNextAction resp = .error d ∧
        Api.generateDraft resp = .error d ∧
        Api.uploadAttachment resp = .error d ∧
        Api.sendDraftReply resp = .error d) ∧
      (resp.ok = false → resp.detail = none →
        Api.createLead resp = .error "Failed to create lead" ∧
        Api.sendEmail resp = .error "Failed to send email" ∧
        Api.syncReplies resp = .error "Failed to sync replies" ∧
        Api.generateNextAction resp = .error "Failed to generate next action" ∧
        Api.generateDraft resp = .error "Failed to generate draft" ∧
        Api.uploadAttachment resp = .error "Failed to upload file" ∧
        Api.sendDraftReply resp = .error "Failed to send draft") := by
  intro α resp d
  refine ⟨?_, ?_, ?_⟩
  · intro hok
    simp [Api.createLead, Api.sendEmail, Api.syncReplies, Api.generateNextAction,
      Api.generateDraft, Api.uploadAttachment, Api.sendDraftReply, hok]
  · intro hok hd hne
    simp [Api.createLead, Api.sendEmail, Api.syncReplies, Api.generateNextAction,
      Api.generateDraft, Api.uploadAttachment, Api.sendDraftReply, hok, hd, jsOr, hne]
  · intro hok hd
    simp [Api.createLead, Api.sendEmail, Api.syncReplies, Api.generateNextAction,
      Api.generateDraft, Api.uploadAttachment, Api.sendDraftReply, hok, hd, jsOr]

/-- Witness for C8 at concrete responses. -/
theorem api_error_propagation_witness :
    Api.createLead (⟨true, none, 7⟩ : ApiResponse Nat) = .ok 7 ∧
    Api.generateDraft (⟨false, some "boom", 0⟩ : ApiResponse Nat) = .error "boom" ∧
    Api.sendDraftReply (⟨false, none, 0⟩ : ApiResponse Nat) = .error "Failed to send draft" := by
  refine ⟨?_, ?_, ?_⟩
  · exact ((api_error_propagation Nat ⟨true, none, 7⟩ "boom").1 rfl).1
  · exact ((api_error_propagation Nat ⟨false, some "boom", 0⟩ "boom").2.1 rfl rfl
      (by decide)).2.2.2.2.1
  · exact ((api_error_propagation Nat ⟨false, none, 0⟩ "boom").2.2 rfl rfl).2.2.2.2.2.2

/-! ## Reply data model shared by the UI and the backend model -/

/-- Draft tone, spec §4.5 and the RepliesInbox tone selector. -/
inductive Tone
  | FORMAL
  | FRIENDLY
  | SHORT
deriving DecidableEq, Repr

/-- Draft lifecycle status, spec §4.6. -/
inductive DraftStatus
  | UNSTARTED
  | DRAFTED
  | SENT
deriving DecidableEq, Repr

/-- An uploaded attachment reference (file_name, storage_ref). -/
structure Attachment where
  file_name : String
  storage_ref : String
deriving DecidableEq, Repr

/-- A generated next-best-action plan, spec §4.4. -/
structure NextActionData where
  title : String
  steps : List String
  urgency : String
  followup_days : Nat
  suggested_tone : Tone
deriving DecidableEq, Repr

/-- An InboundReply row restricted to the fields the draft/next-action
operations read and write. -/
structure ReplyRow where
  id : Nat
  draft_status : DraftStatus
  draft_tone : Option Tone
  draft_subject : Option String
  draft_body : Option String
  attachments : Option (List Attachment)
  next_action : Option NextActionData
deriving DecidableEq, Repr

namespace Backend

/-- Result of a draft generation call: the subject/body returned to the
client and the `cached` flag. -/
structure DraftResult where
  subject : String
  body : String
  cached : Bool
deriving DecidableEq, Repr

/-- Modelled from the spec: the fresh-generation arm of the backend
`generateDraft` (spec §4.5; the backend source is not part of the provided
material).  Calls the drafting provider once, persists subject/body/tone and
sets `draft_status=DRAFTED`.  The final `Nat` counts provider calls. -/
def generateFresh (provider : Tone → String × String) (r : ReplyRow) (tone : Tone) :
    ReplyRow × DraftResult × Nat :=
  let p := provider tone
  ({ r with draft_subject := some p.1, draft_body := some p.2,
            draft_tone := some tone, draft_status := .DRAFTED },
   ⟨p.1, p.2, false⟩, 1)

/-- Modelled from the spec: backend `generateDraft(replyId, tone, force)`
(spec §4.5, state machine §4.6; backend source not provided).  If a draft
exists for this reply with the same tone and `force=false`, the stored draft
is returned with `cached=true` and no provider call; a different tone or
`force=true` regenerates.  `SENT` is terminal, so a sent reply is never
moved back to `DRAFTED`: its stored content is returned unchanged. -/
def generateDraft (provider : Tone → String × String) (r : ReplyRow) (tone : Tone)
    (force : Bool) : ReplyRow × DraftResult × Nat :=
  if r.draft_status = .SENT then
    (r, ⟨r.draft_subject.getD "", r.draft_body.getD "", true⟩, 0)
  else
    match r.draft_subject, r.draft_body, r.draft_tone with
    | some s, some b, some t =>
        if t = tone ∧ force = false then (r, ⟨s, b, true⟩, 0)
        else generateFresh provider r tone
    | _, _, _ => generateFresh provider r tone

/-- Modelled from the spec: backend `generateNextAction(replyId, force)`
(spec §4.4; backend source not provided).  Cached unless `force`; a provider
failure (`none`) leaves the previous cached value untouched and reports
failure. -/
def generateNextAction (provider : Option NextActionData) (r : ReplyRow)
    (force : Bool) : ReplyRow × Bool :=
  match r.next_action, force with
  | some _, false => (r, true)
  | _, _ =>
      match provider with
      | some a => ({ r with next_action := some a }, true)
      | none => (r, false)

/-- Backend send-pipeline errors, spec §7 taxonomy. -/
inductive SendError
  | validation
  | conflict
  | transport
deriving DecidableEq, Repr

/-- Modelled from the spec: backend `sendDraftReply(replyId, editedSubject,
editedBody, attachments)` (spec §4.6; backend source not provided).
Validates non-empty subject/body; refuses to re-send a `SENT` reply
(terminal state); on transport success sets `draft_status=SENT`; on
transport failure leaves the row unchanged. -/
def sendDraftReply (r : ReplyRow) (subj body : String) (_atts : List Attachment)
    (transportOk : Bool) : ReplyRow × Except SendError Unit :=
  if subj = "" ∨ body = "" then (r, .error .validation)
  else if r.draft_status = .SENT then (r, .error .conflict)
  else if transportOk then ({ r with draft_status := .SENT }, .ok ())
  else (r, .error .transport)

/-- Numeric rank of the draft lifecycle: UNSTARTED < DRAFTED < SENT. -/
def statusRank : DraftStatus → Nat
  | .UNSTARTED => 0
  | .DRAFTED => 1
  | .SENT => 2

/-- One backend operation touching a reply row. -/
inductive ReplyOp
  | genDraft (tone : Tone) (force : Bool)
  | genAction (force : Bool)
  | sendDraft (subj body : String) (atts : List Attachment) (transportOk : Bool)

/-- Apply one backend operation to a reply row, with the two providers as
parameters. -/
def applyOp (pD : Tone → String × String) (pA : Option NextActionData)
    (op : ReplyOp) (r : ReplyRow) : ReplyRow :=
  match op with
  | .genDraft t f => (generateDraft pD r t f).1
  | .genAction f => (generateNextAction pA r f).1
  | .sendDraft s b a ok => (sendDraftReply r s b a ok).1

end Backend

/-- C2: with a stored draft for the same tone and `force=false`,
`generateDraft` returns the stored draft with `cached=true` and makes no
provider call; with a different tone it regenerates from the provider
(cache key is reply id and tone). -/
theorem generate_draft_cache_semantics :
    ∀ (provider : Tone → String × String) (r : ReplyRow) (tone tone' : Tone)
      (s b : String),
      r.draft_status = .DRAFTED →
      r.draft_subject = some s → r.draft_body = some b → r.draft_tone = some tone →
      Backend.generateDraft provider r tone false = (r, ⟨s, b, true⟩, 0) ∧
      (tone' ≠ tone →
        (Backend.generateDraft provider r tone' false).2.1.cached = false ∧
        (Backend.generateDraft provider r tone' false).2.2 = 1 ∧
        (Backend.generateDraft provider r tone' false).2.1.subject = (provider tone').1 ∧
        (Backend.generateDraft provider r tone' false).2.1.body = (provider tone').2) := by
  intro provider r tone tone' s b hst hs hb ht
  constructor
  · simp [Backend.generateDraft, hst, hs, hb, ht]
  · intro hne
    simp [Backend.generateDraft, Backend.generateFresh, hst, hs, hb, ht, Ne.symm hne]

/-- Witness for C2: a reply with a stored FRIENDLY draft hits the cache for
FRIENDLY and regenerates for FORMAL. -/
theorem generate_draft_cache_semantics_witness :
    Backend.generateDraft (fun _ => ("S2", "B2"))
      ⟨1, .DRAFTED, some .FRIENDLY, some "S1", some "B1", some [], none⟩
      .FRIENDLY false =
      (⟨1, .DRAFTED, some .FRIENDLY, some "S1", some "B1", some [], none⟩,
        ⟨"S1", "B1", true⟩, 0) ∧
    (Backend.generateDraft (fun _ => ("S2", "B2"))
      ⟨1, .DRAFTED, some .FRIENDLY, some "S1", some "B1", some [], none⟩
      .FORMAL false).2.1.cached = false := by
  constructor
  · exact (generate_draft_cache_semantics (fun _ => ("S2", "B2"))
      ⟨1, .DRAFTED, some .FRIENDLY, some "S1", some "B1", some [], none⟩
      .FRIENDLY .FORMAL "S1" "B1" rfl rfl rfl rfl).1
  · exact ((generate_draft_cache_semantics (fun _ => ("S2", "B2"))
      ⟨1, .DRAFTED, some .FRIENDLY, some "S1", some "B1", some [], none⟩
      .FRIENDLY .FORMAL "S1" "B1" rfl rfl rfl rfl).2 (by decide)).1

/-- Generating a draft either leaves the status alone (cache hit or terminal
SENT) or sets it to DRAFTED from a non-SENT status. -/
theorem generateDraft_status (pD : Tone → String × String) (r : ReplyRow)
    (tone : Tone) (force : Bool) :
    (Backend.generateDraft pD r tone force).1.draft_status = r.draft_status ∨
    ((Backend.generateDraft pD r tone force).1.draft_status = .DRAFTED ∧
      r.draft_status ≠ .SENT) := by
  unfold Backend.generateDraft
  split
  · left; rfl
  · rename_i hns
    split
    · split
      · left; rfl
      · right; exact ⟨rfl, hns⟩
    · right; exact ⟨rfl, hns⟩

/-- Generating a next action never touches the draft status. -/
theorem generateNextAction_status (pA : Option NextActionData) (r : ReplyRow)
    (force : Bool) :
    (Backend.generateNextAction pA r force).1.draft_status = r.draft_status := by
  unfold Backend.generateNextAction
  split
  · rfl
  · split <;> rfl

/-- Sending either leaves the status alone (validation/conflict/transport
failure) or sets SENT from a non-SENT status. -/
theorem sendDraftReply_status (r : ReplyRow) (s b : String)
    (a : List Attachment) (ok : Bool) :
    (Backend.sendDraftReply r s b a ok).1.draft_status = r.draft_status ∨
    ((Backend.sendDraftReply r s b a ok).1.draft_status = .SENT ∧
      r.draft_status ≠ .SENT) := by
  unfold Backend.sendDraftReply
  split
  · left; rfl
  · split
    · left; rfl
    · rename_i hns
      split
      · right; exact ⟨rfl, hns⟩
      · left; rfl

/-- C4: the draft lifecycle only moves forward along
UNSTARTED → DRAFTED → SENT: every backend operation is monotone in status
rank, `SENT` is terminal, and regeneration from `DRAFTED` stays `DRAFTED`
with the newly generated content. -/
theorem draft_status_forward_only :
    ∀ (pD : Tone → String × String) (pA : Option NextActionData)
      (op : Backend.ReplyOp) (r : ReplyRow) (tone : Tone),
      Backend.statusRank r.draft_status ≤
        Backend.statusRank (Backend.applyOp pD pA op r).draft_status ∧
      (r.draft_status = .SENT →
        (Backend.applyOp pD pA op r).draft_status = .SENT) ∧
      (r.draft_status = .DRAFTED →
        (Backend.generateDraft pD r tone true).1.draft_status = .DRAFTED ∧
        (Backend.generateDraft pD r tone true).1.draft_subject = some (pD tone).1 ∧
        (Backend.generateDraft pD r tone true).1.draft_body = some (pD tone).2) := by
  intro pD pA op r tone
  refine ⟨?_, ?_, ?_⟩
  · cases op with
    | genDraft t f =>
        rcases generateDraft_status pD r t f with h | ⟨h, hne⟩
        · simp [Backend.applyOp, h]
        · rw [show Backend.applyOp pD pA (Backend.ReplyOp.genDraft t f) r =
              (Backend.generateDraft pD r t f).1 from rfl, h]
          cases hs : r.draft_status <;> simp_all [Backend.statusRank]
    | genAction f =>
        rw [show Backend.applyOp pD pA (Backend.ReplyOp.genAction f) r =
            (Backend.generateNextAction pA r f).1 from rfl,
          generateNextAction_status]
    | sendDraft s b a ok =>
        rcases sendDraftReply_status r s b a ok with h | ⟨h, hne⟩
        · simp [Backend.applyOp, h]
        · rw [show Backend.applyOp pD pA (Backend.ReplyOp.sendDraft s b a ok) r =
              (Backend.sendDraftReply r s b a ok).1 from rfl, h]
          cases hs : r.draft_status <;> simp_all [Backend.statusRank]
  · intro hsent
    cases op with
    | genDraft t f =>
        show (Backend.generateDraft pD r t f).1.draft_status = .SENT
        simp [Backend.generateDraft, hsent]
    | genAction f =>
        show (Backend.generateNextAction pA r f).1.draft_status = .SENT
        rw [generateNextAction_status]
        exact hsent
    | sendDraft s b a ok =>
        show (Backend.sendDraftReply r s b a ok).1.draft_status = .SENT
        rcases sendDraftReply_status r s b a ok with h | ⟨h, _⟩
        · rw [h]; exact hsent
        · exact h
  · intro hdr
    unfold Backend.generateDraft
    rw [hdr]
    rw [if_neg (show ¬ (DraftStatus.DRAFTED = DraftStatus.SENT) by decide)]
    split
    · split
      · simp_all
      · simp [Backend.generateFresh]
    · simp [Backend.generateFresh]

/-- Witness for C4 at a concrete operation and row. -/
theorem draft_status_forward_only_witness :
    Backend.statusRank
        (Backend.applyOp (fun _ => ("S", "B")) none
          (.sendDraft "s" "b" [] true)
          ⟨1, .DRAFTED, some .FRIENDLY, some "S1", some "B1", some [], none⟩).draft_status ≥
      Backend.statusRank (DraftStatus.DRAFTED) ∧
    (Backend.applyOp (fun _ => ("S", "B")) none (.genDraft .FORMAL true)
        ⟨2, .SENT, some .FRIENDLY, some "S1", some "B1", some [], none⟩).draft_status =
      .SENT ∧
    (Backend.generateDraft (fun _ => ("S", "B"))
        ⟨1, .DRAFTED, some .FRIENDLY, some "S1", some "B1", some [], none⟩
        .SHORT true).1.draft_status = .DRAFTED := by
  refine ⟨?_, ?_, ?_⟩
  · exact (draft_status_forward_only (fun _ => ("S", "B")) none
      (.sendDraft "s" "b" [] true)
      ⟨1, .DRAFTED, some .FRIENDLY, some "S1", some "B1", some [], none⟩ .SHORT).1
  · exact (draft_status_forward_only (fun _ => ("S", "B")) none
      (.genDraft .FORMAL true)
      ⟨2, .SENT, some .FRIENDLY, some "S1", some "B1", some [], none⟩ .SHORT).2.1 rfl
  · exact ((draft_status_forward_only (fun _ => ("S", "B")) none
      (.genDraft .SHORT true)
      ⟨1, .DRAFTED, some .FRIENDLY, some "S1", some "B1", some [], none⟩ .SHORT).2.2 rfl).1

/-! ## RepliesInbox component state (frontend/src/pages/RepliesInbox.jsx)

`replyStates` is a map from reply id to that reply's UI state; every handler
updates it with an object spread `{ ...prev, [replyId]: { ...prev[replyId], … } }`,
embedded as a pointwise function update. -/

namespace UI

/-- The per-reply client state object initialised in `loadReplies`. -/
structure ReplyUI where
  generatingAction : Bool
  generatingDraft : Bool
  sending : Bool
  selectedTone : Tone
  draftSubject : String
  draftBody : String
  attachments : List Attachment
  uploadingFile : Bool
deriving DecidableEq, Repr

/-- The state an absent key reads as (all flags clear, empty draft). -/
def defaultUI : ReplyUI :=
  { generatingAction := false, generatingDraft := false, sending := false,
    selectedTone := .FRIENDLY, draftSubject := "", draftBody := "",
    attachments := [], uploadingFile := false }

/-- `{ ...prev, [id]: f(prev[id]) }`: update one entry, keep the rest. -/
def updateEntry (st : Nat → ReplyUI) (id : Nat) (f : ReplyUI → ReplyUI) :
    Nat → ReplyUI :=
  fun j => if j = id then f (st id) else st j

/-- The per-reply initial state built in `loadReplies` from a server row:
`selectedTone: reply.draft_tone || 'FRIENDLY'`, `draftSubject:
reply.draft_subject || ''`, etc. -/
def initEntry (r : ReplyRow) : ReplyUI :=
  { generatingAction := false, generatingDraft := false, sending := false,
    selectedTone := r.draft_tone.getD .FRIENDLY,
    draftSubject := r.draft_subject.getD "",
    draftBody := r.draft_body.getD "",
    attachments := r.attachments.getD [],
    uploadingFile := false }

/-- `loadReplies` rebuilds the whole `replyStates` object from the fetched
rows (a fresh `{}` filled by `forEach`); entries for ids not in the data
revert to the default. -/
def initReplyStates (data : List ReplyRow) : Nat → ReplyUI :=
  data.foldl (fun st r => fun j => if j = r.id then initEntry r else st j)
    (fun _ => defaultUI)

/-- `filter((_, i) => i !== index)`: drop the element at one index. -/
def removeIdx (l : List Attachment) (idx : Nat) : List Attachment :=
  (l.enum.filter (fun p => p.1 ≠ idx)).map (fun p => p.2)

/-- One `setReplyStates` step of a RepliesInbox handler, keyed by the reply
id it acts on.  Each constructor is one spread-update from the source. -/
inductive UIAction
  | genActionStart
  | genActionFinish
  | genDraftStart
  | genDraftSuccess (subj body : String)
  | genDraftFailure
  | uploadStart
  | uploadSuccess (files : List Attachment)
  | uploadFailure
  | removeAttachment (idx : Nat)
  | editSubject (v : String)
  | editBody (v : String)
  | selectTone (t : Tone)
  | sendStart
  | sendFinishFlag

/-- Apply one handler step to `replyStates`. -/
def applyUIAction (a : UIAction) (st : Nat → ReplyUI) (id : Nat) :
    Nat → ReplyUI :=
  match a with
  | .genActionStart =>
      updateEntry st id fun u => { u with generatingAction := true }
  | .genActionFinish =>
      updateEntry st id fun u => { u with generatingAction := false }
  | .genDraftStart =>
      updateEntry st id fun u => { u with generatingDraft := true }
  | .genDraftSuccess subj body =>
      updateEntry st id fun u =>
        { u with draftSubject := subj, draftBody := body, generatingDraft := false }
  | .genDraftFailure =>
      updateEntry st id fun u => { u with generatingDraft := false }
  | .uploadStart =>
      updateEntry st id fun u => { u with uploadingFile := true }
  | .uploadSuccess files =>
      updateEntry st id fun u =>
        { u with attachments := u.attachments ++ files, uploadingFile := false }
  | .uploadFailure =>
      updateEntry st id fun u => { u with uploadingFile := false }
  | .removeAttachment idx =>
      updateEntry st id fun u => { u with attachments := removeIdx u.attachments idx }
  | .editSubject v =>
      updateEntry st id fun u => { u with draftSubject := v }
  | .editBody v =>
      updateEntry st id fun u => { u with draftBody := v }
  | .selectTone t =>
      updateEntry st id fun u => { u with selectedTone := t }
  | .sendStart =>
      updateEntry st id fun u => { u with sending := true }
  | .sendFinishFlag =>
      updateEntry st id fun u => { u with sending := false }

/-- What `handleSendDraft` does before any network call. -/
inductive SendOutcome
  | blocked (msg : String)
  | dispatched (replyId : Nat) (subj body : String) (atts : List Attachment)
deriving DecidableEq, Repr

/-- The synchronous head of `handleSendDraft`: refuse with an error message
when the draft subject or body is empty (JS falsiness of the empty string),
otherwise flag `sending` and dispatch the edited content. -/
def handleSendDraft (st : Nat → ReplyUI) (id : Nat) :
    SendOutcome × (Nat → ReplyUI) :=
  let s := st id
  if s.draftSubject = "" ∨ s.draftBody = "" then
    (.blocked "Please generate a draft first", st)
  else
    (.dispatched id s.draftSubject s.draftBody s.attachments,
      updateEntry st id fun u => { u with sending := true })

/-- The failure branch of `handleSendDraft`: the catch shows a message and
the finally clears only the in-flight `sending` flag. -/
def handleSendDraftFailure (st : Nat → ReplyUI) (id : Nat) : Nat → ReplyUI :=
  updateEntry st id fun u => { u with sending := false }

/-- The success branch of `handleSendDraft`: `await loadReplies()` rebuilds
every entry from the refetched server rows, then the finally clears the
`sending` flag of the sent reply's (new) entry. -/
def applySendSuccess (data : List ReplyRow) (st : Nat → ReplyUI) (id : Nat) :
    Nat → ReplyUI :=
  let _ := st
  updateEntry (initReplyStates data) id fun u => { u with sending := false }

/-- The client/server pair a reply's draft flows through. -/
structure System where
  server : Nat → ReplyRow
  client : Nat → ReplyUI

/-- Typing in the subject input: client-side state only. -/
def sysEditSubject (sys : System) (id : Nat) (v : String) : System :=
  { sys with client := applyUIAction (.editSubject v) sys.client id }

/-- Typing in the body textarea: client-side state only. -/
def sysEditBody (sys : System) (id : Nat) (v : String) : System :=
  { sys with client := applyUIAction (.editBody v) sys.client id }

/-- The Regenerate Draft button: `handleGenerateDraft(reply.id, true)` runs
the backend generation for the stored reply row and the selected tone, then
overwrites the client draft fields with the returned subject/body. -/
def sysRegenerate (provider : Tone → String × String) (sys : System)
    (id : Nat) : System :=
  let tone := (sys.client id).selectedTone
  let res := Backend.generateDraft provider (sys.server id) tone true
  { server := fun j => if j = id then res.1 else sys.server j,
    client := updateEntry sys.client id fun u =>
      { u with draftSubject := res.2.1.subject, draftBody := res.2.1.body,
               generatingDraft := false } }

end UI

/-- C3: draft edits live only in client state (the server rows are
untouched), and regenerating produces the same AI-generated subject/body
whether or not the user edited first — the regenerated draft comes from the
backend generation, never from the user's edited text. -/
theorem edits_client_side_only :
    ∀ (provider : Tone → String × String) (sys : UI.System) (id : Nat)
      (v w : String),
      (UI.sysEditSubject sys id v).server = sys.server ∧
      (UI.sysEditBody sys id w).server = sys.server ∧
      ((UI.sysRegenerate provider
          (UI.sysEditBody (UI.sysEditSubject sys id v) id w) id).client id).draftSubject =
        ((UI.sysRegenerate provider sys id).client id).draftSubject ∧
      ((UI.sysRegenerate provider
          (UI.sysEditBody (UI.sysEditSubject sys id v) id w) id).client id).draftBody =
        ((UI.sysRegenerate provider sys id).client id).draftBody ∧
      ((UI.sysRegenerate provider sys id).client id).draftSubject =
        (Backend.generateDraft provider (sys.server id)
          ((sys.client id).selectedTone) true).2.1.subject := by
  intro provider sys id v w
  refine ⟨rfl, rfl, ?_, ?_, ?_⟩ <;>
    simp [UI.sysRegenerate, UI.sysEditSubject, UI.sysEditBody, UI.applyUIAction,
      UI.updateEntry]

/-- C6: with an empty draft subject or body the UI send handler refuses to
dispatch and leaves the state unchanged, and the backend send fails with a
ValidationError leaving `draft_status` unchanged. -/
theorem empty_draft_send_blocked :
    ∀ (st : Nat → UI.ReplyUI) (id : Nat) (r : ReplyRow) (subj body : String)
      (atts : List Attachment) (ok : Bool),
      ((st id).draftSubject = "" ∨ (st id).draftBody = "" →
        UI.handleSendDraft st id =
          (.blocked "Please generate a draft first", st)) ∧
      (subj = "" ∨ body = "" →
        Backend.sendDraftReply r subj body atts ok = (r, .error .validation) ∧
        (Backend.sendDraftReply r subj body atts ok).1.draft_status =
          r.draft_status) := by
  intro st id r subj body atts ok
  constructor
  · intro h
    simp only [UI.handleSendDraft]
    rw [if_pos h]
  · intro h
    unfold Backend.sendDraftReply
    rw [if_pos h]
    exact ⟨rfl, rfl⟩

/-- Witness for C6 at a concrete empty-body state. -/
theorem empty_draft_send_blocked_witness :
    UI.handleSendDraft
        (fun _ => { UI.defaultUI with draftSubject := "S" }) 5 =
      (.blocked "Please generate a draft first",
        fun _ => { UI.defaultUI with draftSubject := "S" }) ∧
    Backend.sendDraftReply
        ⟨1, .DRAFTED, some .FRIENDLY, some "S", some "B", some [], none⟩
        "S" "" [] true =
      (⟨1, .DRAFTED, some .FRIENDLY, some "S", some "B", some [], none⟩,
        .error .validation) := by
  constructor
  · exact (empty_draft_send_blocked
      (fun _ => { UI.defaultUI with draftSubject := "S" }) 5
      ⟨1, .DRAFTED, some .FRIENDLY, some "S", some "B", some [], none⟩
      "S" "" [] true).1 (Or.inr rfl)
  · exact ((empty_draft_send_blocked
      (fun _ => { UI.defaultUI with draftSubject := "S" }) 5
      ⟨1, .DRAFTED, some .FRIENDLY, some "S", some "B", some [], none⟩
      "S" "" [] true).2 (Or.inr rfl)).1

/-- C7: the send failure branch clears only the `sending` flag — the edited
subject, body, attachments and tone survive for retry — and a transport
failure leaves the backend row (hence `draft_status`) unchanged. -/
theorem send_failure_preserves_edits :
    ∀ (st : Nat → UI.ReplyUI) (id : Nat) (r : ReplyRow) (subj body : String)
      (atts : List Attachment),
      (UI.handleSendDraftFailure st id) id = { st id with sending := false } ∧
      ((UI.handleSendDraftFailure st id) id).draftSubject = (st id).draftSubject ∧
      ((UI.handleSendDraftFailure st id) id).draftBody = (st id).draftBody ∧
      ((UI.handleSendDraftFailure st id) id).attachments = (st id).attachments ∧
      ((UI.handleSendDraftFailure st id) id).selectedTone = (st id).selectedTone ∧
      (Backend.sendDraftReply r subj body atts false).1 = r := by
  intro st id r subj body atts
  refine ⟨?_, ?_, ?_, ?_, ?_, ?_⟩
  · simp [UI.handleSendDraftFailure, UI.updateEntry]
  · simp [UI.handleSendDraftFailure, UI.updateEntry]
  · simp [UI.handleSendDraftFailure, UI.updateEntry]
  · simp [UI.handleSendDraftFailure, UI.updateEntry]
  · simp [UI.handleSendDraftFailure, UI.updateEntry]
  · unfold Backend.sendDraftReply
    split
    · rfl
    · split
      · rfl
      · simp

/-- A client state where reply 2 holds unsent edits. -/
def demoStates : Nat → UI.ReplyUI :=
  fun j =>
    if j = 2 then { UI.defaultUI with draftSubject := "my edit", draftBody := "b" }
    else UI.defaultUI

/-- Refetched server rows after sending reply 1's draft. -/
def demoServer : List ReplyRow :=
  [ ⟨1, .SENT, some .FRIENDLY, some "S1", some "B1", some [], none⟩,
    ⟨2, .DRAFTED, some .FRIENDLY, some "server subject", some "server body",
      some [], none⟩ ]

/-- C9 counterexample: the send handler's success path on reply 1 rewrites
reply 2's entry (its unsent edit is replaced by the server draft), so not
every per-reply handler leaves other ids' state unchanged. -/
theorem send_success_reinitializes_other_entries :
    (UI.applySendSuccess demoServer demoStates 1) 2 ≠ demoStates 2 := by
  decide

/-- C9 as amended: every `setReplyStates` step of the per-reply handlers —
generate next action, generate draft, upload, remove attachment, edits, tone
selection, send start and send failure — updates only the entry keyed by the
handled reply's id. -/
theorem ui_actions_update_only_own_entry :
    ∀ (a : UI.UIAction) (st : Nat → UI.ReplyUI) (id j : Nat), j ≠ id →
      UI.applyUIAction a st id j = st j := by
  intro a st id j hj
  cases a <;> simp [UI.applyUIAction, UI.updateEntry, hj]

/-- Witness for the amended C9 at a concrete action and ids. -/
theorem ui_actions_update_only_own_entry_witness :
    UI.applyUIAction (.genDraftSuccess "S" "B") demoStates 1 2 = demoStates 2 := by
  exact ui_actions_update_only_own_entry (.genDraftSuccess "S" "B")
    demoStates 1 2 (by decide)

/-! ## Reply ingestion (spec §4.3; backend source not provided) -/

namespace Sync

/-- Lead lifecycle status, spec §3. -/
inductive LeadStatus
  | NEW
  | EMAILED
  | REPLIED
deriving DecidableEq, Repr

/-- A Lead row restricted to what ingestion touches. -/
structure LeadRow where
  id : Nat
  status : LeadStatus
  lead_priority : Option String
  last_reply_intent : Option String
deriving DecidableEq, Repr

/-- An OutboundEmail row: the threading token and the replied flag. -/
structure OutboundRow where
  id : Nat
  lead_id : Nat
  message_id : String
  is_replied : Bool
deriving DecidableEq, Repr

/-- An InboundReply row created by ingestion. -/
structure InboundRow where
  outbound_id : Nat
  lead_id : Nat
  body_preview : String
  intent : String
  priority : String
deriving DecidableEq, Repr

/-- A mailbox message: its UID (sync checkpoint key), the threading token
extracted from its headers, and its text. -/
structure MailMsg where
  uid : Nat
  token : String
  body : String
deriving DecidableEq, Repr

/-- The classifier capability's structured output. -/
structure Classification where
  intent : String
  priority : String
deriving DecidableEq, Repr

/-- The persisted state `syncReplies` reads and writes: the three tables and
the last-seen-UID checkpoint (spec §9: explicit persisted state). -/
structure DB where
  leads : List LeadRow
  outbound : List OutboundRow
  inbound : List InboundRow
  checkpoint : Nat
deriving DecidableEq, Repr

/-- Modelled from the spec: ingestion of one mailbox message (spec §4.3;
backend source not provided).  Look up the OutboundEmail by the threading
token; skip on no match; skip if an InboundReply already exists for that
OutboundEmail; otherwise persist the reply, flip `is_replied`, and move the
Lead to REPLIED with the classified priority/intent.  The Bool reports
whether a reply was ingested. -/
def ingestMessage (classify : MailMsg → Classification) (db : DB)
    (m : MailMsg) : DB × Bool :=
  match db.outbound.find? (fun o => o.message_id = m.token) with
  | none => (db, false)
  | some o =>
      if db.inbound.any (fun ir => ir.outbound_id = o.id) then (db, false)
      else
        let c := classify m
        ({ db with
            inbound := db.inbound ++ [⟨o.id, o.lead_id, m.body, c.intent, c.priority⟩],
            outbound := db.outbound.map (fun x =>
              if x.id = o.id then { x with is_replied := true } else x),
            leads := db.leads.map (fun l =>
              if l.id = o.lead_id then
                { l with status := .REPLIED, lead_priority := some c.priority,
                         last_reply_intent := some c.intent }
              else l) },
         true)

/-- Modelled from the spec: `syncReplies()` (spec §4.3; backend source not
provided).  Process the mailbox messages newer than the checkpoint,
ingesting each in turn, advance the checkpoint past everything seen, and
return the count of newly ingested replies (`replies_found`). -/
def syncReplies (classify : MailMsg → Classification) (mailbox : List MailMsg)
    (db : DB) : DB × Nat :=
  let newMsgs := mailbox.filter (fun m => db.checkpoint < m.uid)
  let res := newMsgs.foldl
    (fun acc m =>
      let r := ingestMessage classify acc.1 m
      (r.1, acc.2 + (if r.2 then 1 else 0)))
    (db, 0)
  ({ res.1 with
      checkpoint := mailbox.foldl (fun c m => max c m.uid) db.checkpoint },
   res.2)

/-- The checkpoint fold only grows. -/
theorem le_foldl_max (l : List MailMsg) (c : Nat) :
    c ≤ l.foldl (fun c m => max c m.uid) c := by
  induction l generalizing c with
  | nil => exact Nat.le_refl c
  | cons m t ih => exact Nat.le_trans (Nat.le_max_left c m.uid) (ih (max c m.uid))

/-- Every UID in the list is bounded by the checkpoint fold. -/
theorem mem_le_foldl_max (l : List MailMsg) (c : Nat) :
    ∀ m ∈ l, m.uid ≤ l.foldl (fun c m => max c m.uid) c := by
  induction l generalizing c with
  | nil => intro m hm; cases hm
  | cons x t ih =>
      intro m hm
      rcases List.mem_cons.mp hm with h | h
      · subst h
        exact Nat.le_trans (Nat.le_max_right c m.uid) (le_foldl_max t (max c m.uid))
      · exact ih (max c x.uid) m h

/-- When the checkpoint already dominates every UID, the fold is a no-op. -/
theorem foldl_max_eq_of_ge (l : List MailMsg) (c : Nat)
    (h : ∀ m ∈ l, m.uid ≤ c) :
    l.foldl (fun c m => max c m.uid) c = c := by
  induction l with
  | nil => rfl
  | cons x t ih =>
      have hx : x.uid ≤ c := h x (List.mem_cons_self x t)
      have : max c x.uid = c := Nat.max_eq_left hx
      rw [List.foldl_cons, this]
      exact ih (fun m hm => h m (List.mem_cons_of_mem x hm))

/-- Ingestion folded over an empty message list does nothing. -/
theorem filter_stale_nil (l : List MailMsg) (c : Nat)
    (h : ∀ m ∈ l, m.uid ≤ c) :
    l.filter (fun m => c < m.uid) = [] := by
  induction l with
  | nil => rfl
  | cons x t ih =>
      have hx : ¬ (c < x.uid) := Nat.not_lt.mpr (h x (List.mem_cons_self x t))
      simp only [List.filter_cons]
      rw [if_neg (by simpa using hx)]
      exact ih (fun m hm => h m (List.mem_cons_of_mem x hm))

/-- C5: `syncReplies` is idempotent — a second run over an unchanged mailbox
finds `replies_found = 0` and leaves every table untouched, a run over a
mailbox with nothing past the checkpoint returns 0 without any change, and
re-ingesting a message whose OutboundEmail already has an InboundReply is a
no-op. -/
theorem syncReplies_idempotent :
    ∀ (classify : MailMsg → Classification) (mailbox : List MailMsg) (db d : DB)
      (m : MailMsg) (o : OutboundRow),
      syncReplies classify mailbox (syncReplies classify mailbox db).1 =
        ((syncReplies classify mailbox db).1, 0) ∧
      ((∀ x ∈ mailbox, x.uid ≤ db.checkpoint) →
        syncReplies classify mailbox db = (db, 0)) ∧
      (d.outbound.find? (fun x => x.message_id = m.token) = some o →
        d.inbound.any (fun ir => ir.outbound_id = o.id) = true →
        ingestMessage classify d m = (d, false)) := by
  intro classify mailbox db d m o
  have hstale : ∀ (db' : DB), (∀ x ∈ mailbox, x.uid ≤ db'.checkpoint) →
      syncReplies classify mailbox db' = (db', 0) := by
    intro db' h
    unfold syncReplies
    rw [filter_stale_nil mailbox _ h]
    simp only [List.foldl_nil]
    rw [foldl_max_eq_of_ge mailbox _ h]
  refine ⟨?_, hstale db, ?_⟩
  · have hcp : (syncReplies classify mailbox db).1.checkpoint =
        mailbox.foldl (fun c m => max c m.uid) db.checkpoint := rfl
    have hbound : ∀ x ∈ mailbox,
        x.uid ≤ (syncReplies classify mailbox db).1.checkpoint := by
      rw [hcp]
      exact mem_le_foldl_max mailbox db.checkpoint
    exact hstale _ hbound
  · intro hfind hhas
    unfold ingestMessage
    rw [hfind]
    simp [hhas]

/-- Witness for C5 at a concrete mailbox and database. -/
theorem syncReplies_idempotent_witness :
    syncReplies (fun _ => ⟨"INTERESTED", "HIGH"⟩)
        [⟨3, "tok-1", "hello"⟩]
        ⟨[⟨1, .EMAILED, none, none⟩], [⟨10, 1, "tok-1", false⟩], [], 5⟩ =
      (⟨[⟨1, .EMAILED, none, none⟩], [⟨10, 1, "tok-1", false⟩], [], 5⟩, 0) ∧
    ingestMessage (fun _ => ⟨"INTERESTED", "HIGH"⟩)
        ⟨[⟨1, .REPLIED, some "HIGH", some "INTERESTED"⟩],
          [⟨10, 1, "tok-1", true⟩],
          [⟨10, 1, "hello", "INTERESTED", "HIGH"⟩], 5⟩
        ⟨7, "tok-1", "hello again"⟩ =
      (⟨[⟨1, .REPLIED, some "HIGH", some "INTERESTED"⟩],
          [⟨10, 1, "tok-1", true⟩],
          [⟨10, 1, "hello", "INTERESTED", "HIGH"⟩], 5⟩, false) := by
  constructor
  · exact (syncReplies_idempotent (fun _ => ⟨"INTERESTED", "HIGH"⟩)
      [⟨3, "tok-1", "hello"⟩]
      ⟨[⟨1, .EMAILED, none, none⟩], [⟨10, 1, "tok-1", false⟩], [], 5⟩
      ⟨[], [], [], 0⟩ ⟨3, "tok-1", "hello"⟩ ⟨10, 1, "tok-1", false⟩).2.1
      (by decide)
  · exact (syncReplies_idempotent (fun _ => ⟨"INTERESTED", "HIGH"⟩)
      [] ⟨[], [], [], 0⟩
      ⟨[⟨1, .REPLIED, some "HIGH", some "INTERESTED"⟩],
        [⟨10, 1, "tok-1", true⟩],
        [⟨10, 1, "hello", "INTERESTED", "HIGH"⟩], 5⟩
      ⟨7, "tok-1", "hello again"⟩ ⟨10, 1, "tok-1", true⟩).2.2
      (by decide) (by decide)

end Sync

end LeadMgmt
